import Mathlib

/-!
# Verification of the polypoint tag-side ranging state machine

Shallow embedding of `src/software/firmware/dw1000_tag.c`: the ranging-event
state machine of the tag node (broadcast subsequence scheduling, listening
window cycling, anchor-response collection).

The C file's mutable globals (`_tag_state`, `_ranging_broadcast_ss_num`,
`_ranging_listening_window_num`, `_ranging_broadcast_ss_send_times`,
`_anchor_response_count`, `_anchor_response_times`, plus the mutable
sequence-number byte of `pp_tag_poll_pkt`) become the fields of `TagState`.
Each C callback/task becomes a function `Config → TagState → input →
TagState × List Effect`, where the `Effect` list records, in program order,
the calls the function makes into the radio driver and the timer service.
8-bit C counters are modelled as `Nat` with `% 256` at each increment, and
32-bit unsigned arithmetic as `Nat` with `% 2 ^ 32`.

Compile-time constants (`NUM_RANGING_BROADCASTS`, `MAX_NUM_ANCHOR_RESPONSES`,
`NUM_RANGING_LISTENING_WINDOWS`, the timer periods, `sizeof(struct
pp_tag_poll)`) and the `DW_DELAY_FROM_PKT_LEN` margin macro live in headers
that are not part of the observed source; they are carried as the fields of a
`Config` parameter, so every theorem quantifies over them.
-/

namespace Polypoint

/-- The `tag_state_e` enumeration (declared in `dw1000_tag.h`, used by
`dw1000_tag.c`): Idle, Broadcasting, AwaitingTransition, Listening,
ComputingRanges. -/
inductive tag_state_e
  | TSTATE_IDLE
  | TSTATE_BROADCASTS
  | TSTATE_TRANSITION_TO_ANC_FINAL
  | TSTATE_LISTENING
  | TSTATE_CALCULATE_RANGE
  deriving DecidableEq

/-- The two callbacks the single repeating timer can be armed with
(`ranging_broadcast_subsequence_task` and `ranging_listening_window_task`). -/
inductive timer_task
  | broadcast_subsequence
  | listening_window
  deriving DecidableEq

/-- The `dwt_callback_data_t.event` codes the tag code compares against.
`DWT_SIG_OTHER n` stands for any further code of the driver enumeration. -/
inductive dwt_event
  | DWT_SIG_TX_DONE
  | DWT_SIG_RX_OKAY
  | DWT_SIG_RX_PHR_ERROR
  | DWT_SIG_RX_ERROR
  | DWT_SIG_RX_SYNCLOSS
  | DWT_SIG_RX_SFDTIMEOUT
  | DWT_SIG_RX_PTOTIMEOUT
  | DWT_SIG_OTHER (code : Nat)
  deriving DecidableEq

/-- One element of the `_anchor_response_times` array
(`anchor_response_times_t`): anchor address, the anchor's reported
times of arrival, the anchor's declared transmit timestamp and the local
receive timestamp of its ANC_FINAL packet. -/
structure anchor_response_times_t where
  anchor_addr : List Nat
  tag_poll_TOAs : List Nat
  anc_final_tx_timestamp : Nat
  anc_final_rx_timestamp : Nat
  deriving DecidableEq

/-- The fields of a received `struct pp_anc_final` that
`dw1000_tag_rxcallback` reads.  The wire layout itself (fixed byte offsets)
is defined in a header outside the observed source, so the packet is
modelled as the already-located fields. -/
structure pp_anc_final where
  sourceAddr : List Nat
  TOAs : List Nat
  dw_time_sent : Nat
  deriving DecidableEq

/-- Input of one receive callback: the driver event code, the reported data
length, the message-type byte found at
`offsetof(struct pp_anc_final, message_type)`, the packet fields, and the
hardware receive timestamp read via `dwt_readrxtimestamp`. -/
structure RxInput where
  event : dwt_event
  datalength : Nat
  message_type : Nat
  pkt : pp_anc_final
  rx_timestamp : Nat
  deriving DecidableEq

/-- Modelled from the spec: compile-time protocol constants and the
`DW_DELAY_FROM_PKT_LEN` packet-length-dependent delay margin are defined in
headers (`dw1000_tag.h`, `dw1000.h`, `firmware.h`) that are not part of the
observed source file, so they are carried as parameters. -/
structure Config where
  NUM_RANGING_BROADCASTS : Nat
  MAX_NUM_ANCHOR_RESPONSES : Nat
  NUM_RANGING_LISTENING_WINDOWS : Nat
  RANGING_BROADCASTS_PERIOD_US : Nat
  RANGING_LISTENING_WINDOW_US : Nat
  PP_TAG_POLL_LEN : Nat
  DW_DELAY_FROM_PKT_LEN : Nat → Nat

/-- Modelled from the spec: the two message-type discriminants
(`MSG_TYPE_PP_NOSLOTS_TAG_POLL`, `MSG_TYPE_PP_NOSLOTS_ANC_FINAL`) are
protocol constants from a header outside the observed source; only their
distinctness matters to the tag code. -/
def MSG_TYPE_PP_NOSLOTS_TAG_POLL : Nat := 1

/-- Modelled from the spec: see `MSG_TYPE_PP_NOSLOTS_TAG_POLL`. -/
def MSG_TYPE_PP_NOSLOTS_ANC_FINAL : Nat := 2

/-- The mutable globals of `dw1000_tag.c`, plus the armed-callback content of
the single repeating timer `_ranging_broadcast_timer`. -/
structure TagState where
  tag_state : tag_state_e
  ranging_broadcast_ss_num : Nat
  ranging_listening_window_num : Nat
  ranging_broadcast_ss_send_times : Nat → Nat
  anchor_response_count : Nat
  anchor_response_times : Nat → anchor_response_times_t
  seqNum : Nat
  timer : Option timer_task

/-- Calls the tag code makes into the radio driver and the timer service,
recorded in program order. -/
inductive Effect
  | timer_start (period : Nat) (task : timer_task)
  | timer_stop
  | dwt_forcetrxoff
  | set_ranging_broadcast_subsequence_settings (n : Nat)
  | set_ranging_listening_window_settings (n : Nat)
  | dwt_writetxfctrl (len : Nat)
  | dwt_setdelayedtrxtime (t : Nat)
  | dwt_writetxdata (seq subseq : Nat)
  | dwt_setrxaftertxdelay (us : Nat)
  | dwt_starttx (response_expected : Bool)
  | dwt_settxantennadelay
  | calculate_ranges
  deriving DecidableEq

/-- Point update of a C array modelled as a function. -/
def writeIdx {α : Type} (f : Nat → α) (i : Nat) (v : α) : Nat → α :=
  fun j => if j = i then v else f j

/-- The delay margin `DW_DELAY_FROM_PKT_LEN(sizeof(struct pp_tag_poll))`
used by `send_poll`. -/
def margin (cfg : Config) : Nat :=
  cfg.DW_DELAY_FROM_PKT_LEN cfg.PP_TAG_POLL_LEN

/-- The 32-bit delayed-transmit time `send_poll` computes at lines 240-241:
`(dwt_readsystimestamphi32() + DW_DELAY_FROM_PKT_LEN(tx_len)) & 0xFFFFFFFE`,
all in unsigned 32-bit arithmetic. -/
def delayVal (cfg : Config) (sys_time_hi32 : Nat) : Nat :=
  ((sys_time_hi32 % 2 ^ 32 + margin cfg) % 2 ^ 32) &&& 0xFFFFFFFE

/-- The value stored into `_ranging_broadcast_ss_send_times` at line 243:
`((uint64_t) delay_time) << 8`. -/
def sendTimeVal (cfg : Config) (sys_time_hi32 : Nat) : Nat :=
  delayVal cfg sys_time_hi32 <<< 8

/-- `dw1000_tag_start_ranging_event` (lines 110-119): set the state to
Broadcasting, clear the send-time array and the subsequence index, arm the
repeating broadcast timer. -/
def dw1000_tag_start_ranging_event (cfg : Config) (s : TagState) :
    TagState × List Effect :=
  ({ s with
      tag_state := tag_state_e.TSTATE_BROADCASTS,
      ranging_broadcast_ss_send_times := fun _ => 0,
      ranging_broadcast_ss_num := 0,
      timer := some timer_task.broadcast_subsequence },
   [Effect.timer_start cfg.RANGING_BROADCASTS_PERIOD_US
      timer_task.broadcast_subsequence])

/-- `dw1000_tag_txcallback` (lines 122-152).  On `DWT_SIG_TX_DONE` in state
`TSTATE_TRANSITION_TO_ANC_FINAL`: move to Listening, reset the window index
and the anchor-response count, arm the listening-window timer; on
`DWT_SIG_TX_DONE` in any other state: nothing; on any other event: stop the
timer. -/
def dw1000_tag_txcallback (cfg : Config) (s : TagState) (event : dwt_event) :
    TagState × List Effect :=
  if event = dwt_event.DWT_SIG_TX_DONE then
    if s.tag_state = tag_state_e.TSTATE_TRANSITION_TO_ANC_FINAL then
      ({ s with
          tag_state := tag_state_e.TSTATE_LISTENING,
          ranging_listening_window_num := 0,
          anchor_response_count := 0,
          timer := some timer_task.listening_window },
       [Effect.timer_start cfg.RANGING_LISTENING_WINDOW_US
          timer_task.listening_window])
    else
      (s, [])
  else
    ({ s with timer := none }, [Effect.timer_stop])

/-- `dw1000_tag_rxcallback` (lines 155-218).  On `DWT_SIG_RX_OKAY` with an
ANC_FINAL message type: if the response array is full, return without any
change; otherwise record the anchor address, its TOA list, its transmit
timestamp shifted left 8 bits, and the local receive timestamp, and
increment the response count.  Any other message type is ignored.  On the
five listed receive-error events, reapply the current listening window's
receive settings; on any other event, nothing. -/
def dw1000_tag_rxcallback (cfg : Config) (s : TagState) (rxd : RxInput) :
    TagState × List Effect :=
  if rxd.event = dwt_event.DWT_SIG_RX_OKAY then
    if rxd.message_type = MSG_TYPE_PP_NOSLOTS_ANC_FINAL then
      if s.anchor_response_count ≥ cfg.MAX_NUM_ANCHOR_RESPONSES then
        (s, [])
      else
        ({ s with
            anchor_response_times :=
              writeIdx s.anchor_response_times s.anchor_response_count
                { anchor_addr := rxd.pkt.sourceAddr,
                  tag_poll_TOAs := rxd.pkt.TOAs,
                  anc_final_tx_timestamp := rxd.pkt.dw_time_sent <<< 8,
                  anc_final_rx_timestamp := rxd.rx_timestamp },
            anchor_response_count := (s.anchor_response_count + 1) % 256 },
         [])
    else
      (s, [])
  else
    if rxd.event = dwt_event.DWT_SIG_RX_PHR_ERROR ∨
       rxd.event = dwt_event.DWT_SIG_RX_ERROR ∨
       rxd.event = dwt_event.DWT_SIG_RX_SYNCLOSS ∨
       rxd.event = dwt_event.DWT_SIG_RX_SFDTIMEOUT ∨
       rxd.event = dwt_event.DWT_SIG_RX_PTOTIMEOUT then
      (s, [Effect.set_ranging_listening_window_settings
             s.ranging_listening_window_num])
    else
      (s, [])

/-- `send_poll` (lines 223-260): bump the packet sequence number, stamp the
current subsequence index into the outgoing packet, compute the delayed
transmit time, store it (shifted left 8 bits) into the send-times slot of
the current subsequence index, and issue the driver calls; on the last
subsequence index, additionally request receive mode after transmit. -/
def send_poll (cfg : Config) (s : TagState) (sys_time_hi32 : Nat) :
    TagState × List Effect :=
  ({ s with
      seqNum := (s.seqNum + 1) % 256,
      ranging_broadcast_ss_send_times :=
        writeIdx s.ranging_broadcast_ss_send_times s.ranging_broadcast_ss_num
          (sendTimeVal cfg sys_time_hi32) },
   [Effect.dwt_forcetrxoff,
    Effect.dwt_writetxfctrl cfg.PP_TAG_POLL_LEN,
    Effect.dwt_setdelayedtrxtime (delayVal cfg sys_time_hi32),
    Effect.dwt_writetxdata ((s.seqNum + 1) % 256) s.ranging_broadcast_ss_num] ++
   (if s.ranging_broadcast_ss_num = cfg.NUM_RANGING_BROADCASTS - 1 then
      [Effect.dwt_setrxaftertxdelay 1, Effect.dwt_starttx true]
    else
      [Effect.dwt_starttx false]) ++
   [Effect.dwt_settxantennadelay])

/-- `ranging_broadcast_subsequence_task` (lines 264-278): on the last
subsequence index stop the timer; apply the subsequence radio settings; call
`send_poll`; increment the subsequence index. -/
def ranging_broadcast_subsequence_task (cfg : Config) (s : TagState)
    (sys_time_hi32 : Nat) : TagState × List Effect :=
  let s1 : TagState :=
    if s.ranging_broadcast_ss_num = cfg.NUM_RANGING_BROADCASTS - 1 then
      { s with timer := none }
    else
      s
  let p := send_poll cfg s1 sys_time_hi32
  ({ p.1 with ranging_broadcast_ss_num :=
      (p.1.ranging_broadcast_ss_num + 1) % 256 },
   (if s.ranging_broadcast_ss_num = cfg.NUM_RANGING_BROADCASTS - 1 then
      [Effect.timer_stop]
    else
      []) ++
   [Effect.set_ranging_broadcast_subsequence_settings
      s.ranging_broadcast_ss_num] ++
   p.2)

/-- `ranging_listening_window_task` (lines 282-306): once the window index
reaches `NUM_RANGING_LISTENING_WINDOWS`, stop the timer, force the radio
off, enter ComputingRanges, and call `calculate_ranges`; otherwise apply the
current window's receive settings and increment the window index. -/
def ranging_listening_window_task (cfg : Config) (s : TagState) :
    TagState × List Effect :=
  if s.ranging_listening_window_num = cfg.NUM_RANGING_LISTENING_WINDOWS then
    ({ s with timer := none, tag_state := tag_state_e.TSTATE_CALCULATE_RANGE },
     [Effect.timer_stop, Effect.dwt_forcetrxoff, Effect.calculate_ranges])
  else
    ({ s with ranging_listening_window_num :=
        (s.ranging_listening_window_num + 1) % 256 },
     [Effect.set_ranging_listening_window_settings
        s.ranging_listening_window_num])

/-- Modelled from the spec: no statement of the observed source file ever
writes `TSTATE_TRANSITION_TO_ANC_FINAL`, although `dw1000_tag_txcallback`
reads it (`_tag_state` is a non-static global, so the writer lives in
repository code outside the observed file).  Per the spec, the machine
"stays logically Broadcasting until the transmit-complete confirmation
arrives" and the advance to AwaitingTransition is implicit once the last
subsequence task has run; this wrapper models that missing step by entering
`TSTATE_TRANSITION_TO_ANC_FINAL` when the subsequence task handles the last
broadcast index. -/
def ranging_broadcast_subsequence_task_full (cfg : Config) (s : TagState)
    (sys_time_hi32 : Nat) : TagState × List Effect :=
  let p := ranging_broadcast_subsequence_task cfg s sys_time_hi32
  if s.ranging_broadcast_ss_num = cfg.NUM_RANGING_BROADCASTS - 1 then
    ({ p.1 with tag_state := tag_state_e.TSTATE_TRANSITION_TO_ANC_FINAL }, p.2)
  else
    p

/-- One external stimulus delivered to the tag code: the start-event entry
point, a fire of the repeating timer (invoking whichever task it is armed
with, with the current hardware clock reading), a transmit callback, or a
receive callback. -/
inductive TagInput
  | start
  | timer_fire (sys_time_hi32 : Nat)
  | tx (event : dwt_event)
  | rx (rxd : RxInput)

/-- Dispatch of one stimulus.  Timer fires run the task the timer is armed
with (using the spec-modelled broadcast task so that the Broadcasting →
AwaitingTransition step is present); a fire of a stopped timer does
nothing. -/
def tag_step (cfg : Config) (s : TagState) (i : TagInput) :
    TagState × List Effect :=
  match i with
  | TagInput.start => dw1000_tag_start_ranging_event cfg s
  | TagInput.timer_fire c =>
      match s.timer with
      | some timer_task.broadcast_subsequence =>
          ranging_broadcast_subsequence_task_full cfg s c
      | some timer_task.listening_window =>
          ranging_listening_window_task cfg s
      | none => (s, [])
  | TagInput.tx e => dw1000_tag_txcallback cfg s e
  | TagInput.rx rxd => dw1000_tag_rxcallback cfg s rxd

/-- Run a list of stimuli, accumulating all emitted effects in order. -/
def run_full (cfg : Config) (s : TagState) (is : List TagInput) :
    TagState × List Effect :=
  is.foldl
    (fun acc i =>
      let p := tag_step cfg acc.1 i
      (p.1, acc.2 ++ p.2))
    (s, [])

/-- Fold of `dw1000_tag_rxcallback` over a sequence of receive callbacks
(state part only). -/
def runRx (cfg : Config) (s : TagState) (rxds : List RxInput) : TagState :=
  rxds.foldl (fun t rxd => (dw1000_tag_rxcallback cfg t rxd).1) s

/-- State after `k` fires of the broadcast subsequence task, the `j`-th fire
reading hardware clock value `clocks j`. -/
def broadcastState (cfg : Config) (clocks : Nat → Nat) (s : TagState) :
    Nat → TagState
  | 0 => s
  | k + 1 =>
      (ranging_broadcast_subsequence_task cfg
        (broadcastState cfg clocks s k) (clocks k)).1

/-- Effects emitted by the `k`-th fire (0-based) of the broadcast
subsequence task. -/
def broadcastFireEffects (cfg : Config) (clocks : Nat → Nat) (s : TagState)
    (k : Nat) : List Effect :=
  (ranging_broadcast_subsequence_task cfg
    (broadcastState cfg clocks s k) (clocks k)).2

/-- Number of `calculate_ranges` invocations in an effect trace. -/
def countCalcRanges : List Effect → Nat
  | [] => 0
  | e :: es =>
      (if e = Effect.calculate_ranges then 1 else 0) + countCalcRanges es

/-! ## Concrete fixtures used by witnesses and counterexamples -/

/-- A concrete configuration: 3 broadcasts, up to 4 anchor responses,
2 listening windows, arbitrary timer periods and delay margin. -/
def cfgW : Config :=
  { NUM_RANGING_BROADCASTS := 3,
    MAX_NUM_ANCHOR_RESPONSES := 4,
    NUM_RANGING_LISTENING_WINDOWS := 2,
    RANGING_BROADCASTS_PERIOD_US := 1000,
    RANGING_LISTENING_WINDOW_US := 4000,
    PP_TAG_POLL_LEN := 16,
    DW_DELAY_FROM_PKT_LEN := fun n => 100 + n }

/-- An all-zero anchor response record (the zero-initialised static array). -/
def zeroResp : anchor_response_times_t :=
  { anchor_addr := List.replicate 8 0, tag_poll_TOAs := [],
    anc_final_tx_timestamp := 0, anc_final_rx_timestamp := 0 }

/-- A concrete stale-looking anchor response record. -/
def staleResp : anchor_response_times_t :=
  { anchor_addr := List.replicate 8 9, tag_poll_TOAs := [5, 6, 7],
    anc_final_tx_timestamp := 0, anc_final_rx_timestamp := 7 }

/-- The boot state: Idle, all counters and arrays zero, timer stopped. -/
def sIdle : TagState :=
  { tag_state := tag_state_e.TSTATE_IDLE,
    ranging_broadcast_ss_num := 0,
    ranging_listening_window_num := 0,
    ranging_broadcast_ss_send_times := fun _ => 0,
    anchor_response_count := 0,
    anchor_response_times := fun _ => zeroResp,
    seqNum := 0,
    timer := none }

/-- A mid-event state: Listening with one window handled, three responses
collected, a non-zero send-time slot and non-trivial stored records. -/
def sMid : TagState :=
  { tag_state := tag_state_e.TSTATE_LISTENING,
    ranging_broadcast_ss_num := 2,
    ranging_listening_window_num := 1,
    ranging_broadcast_ss_send_times := fun i => if i = 0 then 42 else 0,
    anchor_response_count := 3,
    anchor_response_times := fun _ => staleResp,
    seqNum := 9,
    timer := some timer_task.listening_window }

/-- A state in which all broadcasts are sent and the last transmit-complete
confirmation is awaited. -/
def sTrans : TagState :=
  { sMid with tag_state := tag_state_e.TSTATE_TRANSITION_TO_ANC_FINAL }

/-- A successfully received ANC_FINAL packet. -/
def rxAncFinal : RxInput :=
  { event := dwt_event.DWT_SIG_RX_OKAY,
    datalength := 40,
    message_type := MSG_TYPE_PP_NOSLOTS_ANC_FINAL,
    pkt := { sourceAddr := [1, 2, 3, 4, 5, 6, 7, 8],
             TOAs := [10, 20, 30],
             dw_time_sent := 5000 },
    rx_timestamp := 999 }

/-- A receive-error callback input (synchronisation loss). -/
def rxSyncLoss : RxInput :=
  { rxAncFinal with event := dwt_event.DWT_SIG_RX_SYNCLOSS }

/-- A successfully received packet of a message type the tag does not
consume. -/
def rxUnknownType : RxInput :=
  { rxAncFinal with message_type := 7 }

/-! ## Helper lemmas -/

/-- Clearing the least-significant bit of a 32-bit value:
`x & 0xFFFFFFFE = 2 * (x / 2)` for `x < 2 ^ 32`. -/
theorem land_fffffffe_eq (x : Nat) (hx : x < 2 ^ 32) :
    x &&& 0xFFFFFFFE = 2 * (x / 2) := by
  apply Nat.eq_of_testBit_eq
  intro i
  rw [Nat.testBit_land]
  match i with
  | 0 =>
      have h1 : Nat.testBit 0xFFFFFFFE 0 = false := by decide
      have h2 : Nat.testBit (2 * (x / 2)) 0 = false := by
        rw [Nat.testBit_to_div_mod]
        simp only [Nat.pow_zero, Nat.div_one, decide_eq_false_iff_not]
        omega
      rw [h1, h2, Bool.and_false]
  | j + 1 =>
      rcases Nat.lt_or_ge j 31 with hj | hj
      · have h1 : Nat.testBit 0xFFFFFFFE (j + 1) = true := by
          rw [Nat.testBit_add_one]
          have e : (0xFFFFFFFE : Nat) / 2 = 2 ^ 31 - 1 := by norm_num
          rw [e, Nat.testBit_two_pow_sub_one]
          simpa using hj
        have h2 : Nat.testBit (2 * (x / 2)) (j + 1) = Nat.testBit x (j + 1) := by
          rw [Nat.testBit_add_one, Nat.testBit_add_one]
          congr 1
          omega
        rw [h1, Bool.and_true, h2]
      · have hx2 : x < 2 ^ (j + 1) :=
          lt_of_lt_of_le hx (Nat.pow_le_pow_right (by norm_num) (by omega))
        have h1 : Nat.testBit x (j + 1) = false := Nat.testBit_lt_two_pow hx2
        have h2 : Nat.testBit (2 * (x / 2)) (j + 1) = false :=
          Nat.testBit_lt_two_pow (lt_of_le_of_lt (by omega) hx2)
        rw [h1, h2, Bool.false_and]

/-- The 32-bit delayed-transmit value, written arithmetically. -/
theorem delayVal_eq (cfg : Config) (c : Nat) :
    delayVal cfg c = 2 * (((c % 2 ^ 32 + margin cfg) % 2 ^ 32) / 2) :=
  land_fffffffe_eq _ (Nat.mod_lt _ (by norm_num))

/-- `countCalcRanges` distributes over concatenation. -/
@[simp]
theorem countCalcRanges_append (as bs : List Effect) :
    countCalcRanges (as ++ bs) = countCalcRanges as + countCalcRanges bs := by
  induction as with
  | nil => simp [countCalcRanges]
  | cons a as ih => simp [countCalcRanges, ih]; omega

/-! ## C2: what the start entry point clears -/

/-- C2 counterexample: starting a new ranging event does not clear the
anchor-response count or the stored response records.  In the mid-event
state `sMid` (count = 3, a stale record stored), calling
`dw1000_tag_start_ranging_event` leaves the count at 3 and the record in
place, refuting the claim that all event-scoped data (send-time array,
response count, response records) is cleared synchronously when a new event
starts. -/
theorem c2_counterexample :
    sMid.anchor_response_count = 3 ∧
    (dw1000_tag_start_ranging_event cfgW sMid).1.anchor_response_count = 3 ∧
    (dw1000_tag_start_ranging_event cfgW sMid).1.anchor_response_times 0 =
      staleResp ∧
    staleResp.anc_final_rx_timestamp = 7 :=
  ⟨rfl, rfl, rfl, rfl⟩

/-- C2 amended: when a new ranging event starts,
`dw1000_tag_start_ranging_event` synchronously clears the broadcast
send-time array and the subsequence index — before any broadcast is sent —
but leaves the anchor-response count and the response records untouched;
the response count is reset to 0 only later, by the transmit-complete
callback that enters Listening, and the records themselves are never
erased (only the count is reset). -/
theorem c2_amended_event_clearing (cfg : Config) (s : TagState) :
    ((dw1000_tag_start_ranging_event cfg s).1.ranging_broadcast_ss_send_times
      = fun _ => 0) ∧
    (dw1000_tag_start_ranging_event cfg s).1.ranging_broadcast_ss_num = 0 ∧
    (dw1000_tag_start_ranging_event cfg s).1.anchor_response_count =
      s.anchor_response_count ∧
    (dw1000_tag_start_ranging_event cfg s).1.anchor_response_times =
      s.anchor_response_times ∧
    (s.tag_state = tag_state_e.TSTATE_TRANSITION_TO_ANC_FINAL →
      (dw1000_tag_txcallback cfg s dwt_event.DWT_SIG_TX_DONE).1.anchor_response_count
        = 0 ∧
      (dw1000_tag_txcallback cfg s dwt_event.DWT_SIG_TX_DONE).1.anchor_response_times
        = s.anchor_response_times) := by
  refine ⟨rfl, rfl, rfl, rfl, fun h => ?_⟩
  constructor <;> simp [dw1000_tag_txcallback, h]

/-- C2 witness: the amended theorem applied to the concrete state
`sTrans`. -/
theorem c2_witness :
    sTrans.tag_state = tag_state_e.TSTATE_TRANSITION_TO_ANC_FINAL ∧
    (dw1000_tag_txcallback cfgW sTrans dwt_event.DWT_SIG_TX_DONE).1.anchor_response_count
      = 0 :=
  ⟨rfl, ((c2_amended_event_clearing cfgW sTrans).2.2.2.2 rfl).1⟩

/-! ## C3: start-ranging-event while an event is in progress -/

/-- C3 counterexample: `dw1000_tag_start_ranging_event` performs no state
check.  Called in the mid-event Listening state `sMid`, it changes the tag
state to Broadcasting and wipes the in-progress event's send-time slot 0
and subsequence index, refuting the claim that calling it mid-event leaves
the in-progress event's state unchanged. -/
theorem c3_counterexample :
    sMid.tag_state = tag_state_e.TSTATE_LISTENING ∧
    (dw1000_tag_start_ranging_event cfgW sMid).1.tag_state =
      tag_state_e.TSTATE_BROADCASTS ∧
    sMid.ranging_broadcast_ss_send_times 0 = 42 ∧
    (dw1000_tag_start_ranging_event cfgW sMid).1.ranging_broadcast_ss_send_times 0
      = 0 ∧
    sMid.ranging_broadcast_ss_num = 2 ∧
    (dw1000_tag_start_ranging_event cfgW sMid).1.ranging_broadcast_ss_num = 0 :=
  ⟨rfl, rfl, rfl, rfl, rfl, rfl⟩

/-- C3 amended: the start-ranging-event entry point takes no arguments and
performs no state check at all — called in any state whatsoever it
unconditionally (re)starts an event: it sets the state to Broadcasting,
clears the send-time array, resets the subsequence index to 0, and restarts
the broadcast timer, clobbering whatever event was in progress. -/
theorem c3_amended_no_state_check (cfg : Config) (s : TagState) :
    (dw1000_tag_start_ranging_event cfg s).1.tag_state =
      tag_state_e.TSTATE_BROADCASTS ∧
    (∀ i, (dw1000_tag_start_ranging_event cfg s).1.ranging_broadcast_ss_send_times i
      = 0) ∧
    (dw1000_tag_start_ranging_event cfg s).1.ranging_broadcast_ss_num = 0 ∧
    (dw1000_tag_start_ranging_event cfg s).1.timer =
      some timer_task.broadcast_subsequence ∧
    (dw1000_tag_start_ranging_event cfg s).2 =
      [Effect.timer_start cfg.RANGING_BROADCASTS_PERIOD_US
        timer_task.broadcast_subsequence] :=
  ⟨rfl, fun _ => rfl, rfl, rfl, rfl⟩

/-! ## C6: receive-error recovery -/

/-- C6: a receive-error callback (PHY error, general receive error, sync
loss, SFD timeout, or preamble timeout) arriving while in Listening returns
the state completely unchanged — window index, response count, records, tag
state, and the armed timer are all as before — and its entire effect trace
is exactly one reapplication of the current window's receive settings (in
particular it contains no timer operation, so the window-advance timer is
unaffected). -/
theorem c6_rx_error_recovery (cfg : Config) (s : TagState) (rxd : RxInput)
    (hs : s.tag_state = tag_state_e.TSTATE_LISTENING)
    (he : rxd.event = dwt_event.DWT_SIG_RX_PHR_ERROR ∨
          rxd.event = dwt_event.DWT_SIG_RX_ERROR ∨
          rxd.event = dwt_event.DWT_SIG_RX_SYNCLOSS ∨
          rxd.event = dwt_event.DWT_SIG_RX_SFDTIMEOUT ∨
          rxd.event = dwt_event.DWT_SIG_RX_PTOTIMEOUT) :
    dw1000_tag_rxcallback cfg s rxd =
      (s, [Effect.set_ranging_listening_window_settings
            s.ranging_listening_window_num]) := by
  rcases he with h | h | h | h | h <;> simp [dw1000_tag_rxcallback, h]

/-- C6 witness: the theorem applied to the Listening state `sMid` and a
sync-loss receive callback. -/
theorem c6_witness :
    sMid.tag_state = tag_state_e.TSTATE_LISTENING ∧
    dw1000_tag_rxcallback cfgW sMid rxSyncLoss =
      (sMid, [Effect.set_ranging_listening_window_settings 1]) :=
  ⟨rfl, c6_rx_error_recovery cfgW sMid rxSyncLoss rfl (by decide)⟩

/-! ## C7: transmit-failure handling -/

/-- C7: any transmit callback whose event is not `DWT_SIG_TX_DONE`
unconditionally stops the active timer and makes no other change: the
result state is the input state with only the armed timer cleared (tag
state, both counters, the send-time array, the response records and the
sequence number are untouched), and the effect trace is exactly the
`timer_stop` call — the event is left incomplete. -/
theorem c7_tx_failure_stops_timer (cfg : Config) (s : TagState)
    (e : dwt_event) (he : e ≠ dwt_event.DWT_SIG_TX_DONE) :
    dw1000_tag_txcallback cfg s e =
      ({ s with timer := none }, [Effect.timer_stop]) := by
  simp [dw1000_tag_txcallback, he]

/-- C7 witness: the theorem applied to `sMid` and a non-success transmit
event. -/
theorem c7_witness :
    dwt_event.DWT_SIG_OTHER 0 ≠ dwt_event.DWT_SIG_TX_DONE ∧
    dw1000_tag_txcallback cfgW sMid (dwt_event.DWT_SIG_OTHER 0) =
      ({ sMid with timer := none }, [Effect.timer_stop]) :=
  ⟨by decide, c7_tx_failure_stops_timer cfgW sMid _ (by decide)⟩

/-! ## C8: unknown message types are ignored -/

/-- C8: a successfully received buffer whose message-type byte is neither
`MSG_TYPE_PP_NOSLOTS_TAG_POLL` nor `MSG_TYPE_PP_NOSLOTS_ANC_FINAL` produces
no anchor-response record and changes nothing: the receive callback returns
the state unchanged (response count, records, window index and tag state
included) with an empty effect trace. -/
theorem c8_unknown_type_ignored (cfg : Config) (s : TagState) (rxd : RxInput)
    (he : rxd.event = dwt_event.DWT_SIG_RX_OKAY)
    (h1 : rxd.message_type ≠ MSG_TYPE_PP_NOSLOTS_TAG_POLL)
    (h2 : rxd.message_type ≠ MSG_TYPE_PP_NOSLOTS_ANC_FINAL) :
    dw1000_tag_rxcallback cfg s rxd = (s, []) := by
  simp [dw1000_tag_rxcallback, he, h2]

/-- C8 witness: the theorem applied to `sMid` and a packet of message
type 7. -/
theorem c8_witness :
    rxUnknownType.message_type = 7 ∧
    dw1000_tag_rxcallback cfgW sMid rxUnknownType = (sMid, []) :=
  ⟨rfl, c8_unknown_type_ignored cfgW sMid rxUnknownType rfl (by decide) (by decide)⟩

/-! ## C4: the response collection is bounded -/

/-- One receive callback preserves the bound on the anchor-response
count. -/
theorem rxcallback_count_le (cfg : Config) (s : TagState) (rxd : RxInput)
    (h : s.anchor_response_count ≤ cfg.MAX_NUM_ANCHOR_RESPONSES) :
    (dw1000_tag_rxcallback cfg s rxd).1.anchor_response_count ≤
      cfg.MAX_NUM_ANCHOR_RESPONSES := by
  unfold dw1000_tag_rxcallback
  split_ifs with h1 h2 h3 h4 <;> simp <;> omega

/-- C4: for every sequence of receive-callback invocations, the
anchor-response count never exceeds `MAX_NUM_ANCHOR_RESPONSES` (first
conjunct, by folding `dw1000_tag_rxcallback` over any input list), and a
successfully decoded ANC_FINAL packet arriving when the collection is full
is dropped silently: the callback returns the state completely unchanged —
count, records and tag state included — with an empty effect trace (second
conjunct). -/
theorem c4_response_collection_bounded :
    (∀ (cfg : Config) (s : TagState) (rxds : List RxInput),
        s.anchor_response_count ≤ cfg.MAX_NUM_ANCHOR_RESPONSES →
        (runRx cfg s rxds).anchor_response_count ≤
          cfg.MAX_NUM_ANCHOR_RESPONSES) ∧
    (∀ (cfg : Config) (s : TagState) (rxd : RxInput),
        rxd.event = dwt_event.DWT_SIG_RX_OKAY →
        rxd.message_type = MSG_TYPE_PP_NOSLOTS_ANC_FINAL →
        cfg.MAX_NUM_ANCHOR_RESPONSES ≤ s.anchor_response_count →
        dw1000_tag_rxcallback cfg s rxd = (s, [])) := by
  constructor
  · intro cfg s rxds
    induction rxds generalizing s with
    | nil => intro h; exact h
    | cons rxd rest ih =>
        intro h
        exact ih _ (rxcallback_count_le cfg s rxd h)
  · intro cfg s rxd he hm hfull
    simp [dw1000_tag_rxcallback, he, hm, hfull]

/-- C4 witness: from `sMid` (count 3, bound 4), five consecutive ANC_FINAL
receptions leave the count at the bound, and with the bound lowered to 3
one more ANC_FINAL is dropped with no change at all. -/
theorem c4_witness :
    (runRx cfgW sMid [rxAncFinal, rxAncFinal, rxAncFinal, rxAncFinal,
      rxAncFinal]).anchor_response_count ≤ 4 ∧
    dw1000_tag_rxcallback { cfgW with MAX_NUM_ANCHOR_RESPONSES := 3 } sMid
      rxAncFinal = (sMid, []) :=
  ⟨c4_response_collection_bounded.1 cfgW sMid _ (by decide),
   c4_response_collection_bounded.2 { cfgW with MAX_NUM_ANCHOR_RESPONSES := 3 }
     sMid rxAncFinal rfl rfl (by decide)⟩

/-! ## C10: the receive callback never consults the tag state -/

/-- C10, part 1: `dw1000_tag_rxcallback` commutes with any change of the
`tag_state` field — it neither reads nor writes the machine state, so its
behaviour is identical in Idle, Broadcasting, Listening and
ComputingRanges. -/
theorem rxcallback_tag_state_commute (cfg : Config) (s : TagState)
    (rxd : RxInput) (t : tag_state_e) :
    dw1000_tag_rxcallback cfg { s with tag_state := t } rxd =
      ({ (dw1000_tag_rxcallback cfg s rxd).1 with tag_state := t },
       (dw1000_tag_rxcallback cfg s rxd).2) := by
  unfold dw1000_tag_rxcallback
  split_ifs <;> rfl

/-- C10: the receive callback performs no check of the current tag state.
For every state `s` — whatever its `tag_state` — a successfully received
ANC_FINAL packet with room in the collection appends the anchor-response
record at index `count` and increments the response count, leaving
`tag_state` unchanged; and changing the `tag_state` field beforehand
changes nothing else in the callback's behaviour (commutation clause). -/
theorem c10_rx_ignores_tag_state (cfg : Config) (s : TagState)
    (rxd : RxInput)
    (he : rxd.event = dwt_event.DWT_SIG_RX_OKAY)
    (hm : rxd.message_type = MSG_TYPE_PP_NOSLOTS_ANC_FINAL)
    (hc : s.anchor_response_count < cfg.MAX_NUM_ANCHOR_RESPONSES)
    (hM : cfg.MAX_NUM_ANCHOR_RESPONSES ≤ 255) :
    (dw1000_tag_rxcallback cfg s rxd).1.anchor_response_count =
      s.anchor_response_count + 1 ∧
    (dw1000_tag_rxcallback cfg s rxd).1.anchor_response_times
        s.anchor_response_count =
      { anchor_addr := rxd.pkt.sourceAddr,
        tag_poll_TOAs := rxd.pkt.TOAs,
        anc_final_tx_timestamp := rxd.pkt.dw_time_sent <<< 8,
        anc_final_rx_timestamp := rxd.rx_timestamp } ∧
    (dw1000_tag_rxcallback cfg s rxd).1.tag_state = s.tag_state ∧
    (∀ t : tag_state_e,
      dw1000_tag_rxcallback cfg { s with tag_state := t } rxd =
        ({ (dw1000_tag_rxcallback cfg s rxd).1 with tag_state := t },
         (dw1000_tag_rxcallback cfg s rxd).2)) := by
  have hfull : ¬ s.anchor_response_count ≥ cfg.MAX_NUM_ANCHOR_RESPONSES := by
    omega
  refine ⟨?_, ?_, ?_, fun t => rxcallback_tag_state_commute cfg s rxd t⟩
  · simp only [dw1000_tag_rxcallback, he, hm, if_pos rfl, if_neg hfull]
    simp only [if_true]
    omega
  · simp [dw1000_tag_rxcallback, he, hm, hfull, writeIdx]
  · simp [dw1000_tag_rxcallback, he, hm, hfull]

/-- C10 witness: the theorem applied in the Idle state `sIdle` — not
Listening — where the ANC_FINAL packet is still appended. -/
theorem c10_witness :
    sIdle.tag_state = tag_state_e.TSTATE_IDLE ∧
    (dw1000_tag_rxcallback cfgW sIdle rxAncFinal).1.anchor_response_count = 1 :=
  ⟨rfl, (c10_rx_ignores_tag_state cfgW sIdle rxAncFinal rfl rfl (by decide)
    (by decide)).1⟩

/-! ## C9: timestamp formats and wraparound arithmetic -/

/-- C9: the scheduled broadcast send time stored by `send_poll` equals the
32-bit high system timestamp plus the packet-length-dependent margin
`DW_DELAY_FROM_PKT_LEN(sizeof(struct pp_tag_poll))`, reduced mod `2 ^ 32`
(unsigned wraparound — defined for every clock reading, never an error),
with its least-significant bit cleared, then shifted left 8 bits, so the
stored value is even times 256: its low byte is zero and it fits the 40-bit
timestamp format.  Likewise the receive callback stores the anchor's
declared transmit timestamp shifted left 8 bits, with low byte zero. -/
theorem c9_timestamp_format (cfg : Config) (s : TagState) (sys_time : Nat)
    (rxd : RxInput)
    (he : rxd.event = dwt_event.DWT_SIG_RX_OKAY)
    (hm : rxd.message_type = MSG_TYPE_PP_NOSLOTS_ANC_FINAL)
    (hc : s.anchor_response_count < cfg.MAX_NUM_ANCHOR_RESPONSES)
    (hdw : rxd.pkt.dw_time_sent < 2 ^ 32) :
    (send_poll cfg s sys_time).1.ranging_broadcast_ss_send_times
        s.ranging_broadcast_ss_num =
      (((sys_time % 2 ^ 32 + margin cfg) % 2 ^ 32) &&& 0xFFFFFFFE) <<< 8 ∧
    delayVal cfg sys_time % 2 = 0 ∧
    delayVal cfg sys_time < 2 ^ 32 ∧
    sendTimeVal cfg sys_time % 256 = 0 ∧
    sendTimeVal cfg sys_time < 2 ^ 40 ∧
    ((dw1000_tag_rxcallback cfg s rxd).1.anchor_response_times
        s.anchor_response_count).anc_final_tx_timestamp =
      rxd.pkt.dw_time_sent <<< 8 ∧
    (rxd.pkt.dw_time_sent <<< 8) % 256 = 0 ∧
    rxd.pkt.dw_time_sent <<< 8 < 2 ^ 40 := by
  have hlt : (sys_time % 2 ^ 32 + margin cfg) % 2 ^ 32 < 2 ^ 32 :=
    Nat.mod_lt _ (by norm_num)
  have hd := delayVal_eq cfg sys_time
  have hfull : ¬ s.anchor_response_count ≥ cfg.MAX_NUM_ANCHOR_RESPONSES := by
    omega
  refine ⟨?_, ?_, ?_, ?_, ?_, ?_, ?_, ?_⟩
  · simp [send_poll, writeIdx, sendTimeVal, delayVal]
  · omega
  · omega
  · rw [sendTimeVal, Nat.shiftLeft_eq]
    omega
  · rw [sendTimeVal, Nat.shiftLeft_eq]
    have : delayVal cfg sys_time < 2 ^ 32 := by omega
    omega
  · simp [dw1000_tag_rxcallback, he, hm, hfull, writeIdx]
  · rw [Nat.shiftLeft_eq]
    omega
  · rw [Nat.shiftLeft_eq]
    omega

/-- C9 witness: the theorem applied at a clock reading near the 32-bit
wraparound boundary (the sum wraps mod `2 ^ 32` rather than failing). -/
theorem c9_witness :
    (send_poll cfgW sMid (2 ^ 32 - 1)).1.ranging_broadcast_ss_send_times 2 =
      ((((2 ^ 32 - 1) % 2 ^ 32 + margin cfgW) % 2 ^ 32) &&& 0xFFFFFFFE) <<< 8 ∧
    sendTimeVal cfgW (2 ^ 32 - 1) % 256 = 0 :=
  ⟨(c9_timestamp_format cfgW sMid (2 ^ 32 - 1) rxAncFinal rfl rfl (by decide)
      (by decide)).1,
   (c9_timestamp_format cfgW sMid (2 ^ 32 - 1) rxAncFinal rfl rfl (by decide)
      (by decide)).2.2.2.1⟩

/-! ## C5: the broadcast send-times array over a whole event -/

/-- Invariant of the broadcast phase: starting from a state with
subsequence index 0 and an all-zero send-times array (the state
`dw1000_tag_start_ranging_event` produces), after `k ≤ NUM_RANGING_BROADCASTS
≤ 256` fires of the subsequence task the subsequence index is `k % 256` and
exactly the slots `i < k` have been written, slot `i` holding the send time
scheduled at the `i`-th fire — each slot is written exactly once, in
increasing index order. -/
theorem broadcast_phase_inv (cfg : Config) (clocks : Nat → Nat) (t : TagState)
    (h0 : t.ranging_broadcast_ss_num = 0)
    (ht : ∀ i, t.ranging_broadcast_ss_send_times i = 0)
    (hN256 : cfg.NUM_RANGING_BROADCASTS ≤ 256) :
    ∀ k, k ≤ cfg.NUM_RANGING_BROADCASTS →
      (broadcastState cfg clocks t k).ranging_broadcast_ss_num = k % 256 ∧
      (∀ i, (broadcastState cfg clocks t k).ranging_broadcast_ss_send_times i =
        if i < k then sendTimeVal cfg (clocks i) else 0) := by
  intro k
  induction k with
  | zero =>
      intro _
      refine ⟨by simpa [broadcastState] using h0, fun i => ?_⟩
      simp [broadcastState, ht i]
  | succ k ih =>
      intro hk
      obtain ⟨hss, htimes⟩ := ih (Nat.le_of_succ_le hk)
      have hk256 : k < 256 := by omega
      have hkk : k % 256 = k := Nat.mod_eq_of_lt hk256
      rw [hkk] at hss
      constructor
      · simp [broadcastState, ranging_broadcast_subsequence_task, send_poll,
          apply_ite, hss]
      · intro i
        have hstep :
            (broadcastState cfg clocks t (k + 1)).ranging_broadcast_ss_send_times i =
            writeIdx
              (broadcastState cfg clocks t k).ranging_broadcast_ss_send_times
              k (sendTimeVal cfg (clocks k)) i := by
          simp only [broadcastState, ranging_broadcast_subsequence_task,
            send_poll]
          split_ifs <;> simp [hss]
        rw [hstep, writeIdx]
        by_cases hik : i = k
        · subst hik
          simp
        · simp only [if_neg hik]
          rw [htimes i]
          by_cases hlt : i < k
          · rw [if_pos hlt, if_pos (by omega)]
          · rw [if_neg hlt, if_neg (by omega)]

/-- C5: over a whole successful event, for every `NUM_RANGING_BROADCASTS ≥ 1`
(and ≤ 256, the reach of the 8-bit subsequence counter), under the
environment assumptions that the 32-bit clock readings of the successive
fires are spaced by at least 2 ticks and that no sum wraps past `2 ^ 32`:
(1) at every intermediate point `k` of the phase exactly the slots `i < k`
are non-zero — each slot is written at most once, by the subsequence task,
in increasing index order; (2) after the last fire the array has exactly
`NUM_RANGING_BROADCASTS` non-zero entries (slots `≥ N` stay 0 by (1));
(3) the entries are strictly increasing in slot order; and (4) each fire's
driver-call trace schedules the slot's delayed transmit time
(`dwt_setdelayedtrxtime`, the value whose shift is stored in that slot)
before starting that slot's transmission (`dwt_starttx`), with the last
fire stopping the timer and requesting receive-after-transmit. -/
theorem c5_broadcast_send_times (cfg : Config) (s : TagState)
    (clocks : Nat → Nat)
    (hN1 : 1 ≤ cfg.NUM_RANGING_BROADCASTS)
    (hN256 : cfg.NUM_RANGING_BROADCASTS ≤ 256)
    (hck : ∀ i, i < cfg.NUM_RANGING_BROADCASTS →
      clocks i < 2 ^ 32 ∧ 2 ≤ clocks i + margin cfg ∧
      clocks i + margin cfg < 2 ^ 32)
    (hmono : ∀ j, j < cfg.NUM_RANGING_BROADCASTS → ∀ i, i < j →
      clocks i + 2 ≤ clocks j) :
    (∀ k, k ≤ cfg.NUM_RANGING_BROADCASTS → ∀ i,
      (broadcastState cfg clocks
        (dw1000_tag_start_ranging_event cfg s).1 k).ranging_broadcast_ss_send_times i
        = if i < k then sendTimeVal cfg (clocks i) else 0) ∧
    (∀ i, i < cfg.NUM_RANGING_BROADCASTS → sendTimeVal cfg (clocks i) ≠ 0) ∧
    (∀ i j, i < j → j < cfg.NUM_RANGING_BROADCASTS →
      sendTimeVal cfg (clocks i) < sendTimeVal cfg (clocks j)) ∧
    (∀ k, k < cfg.NUM_RANGING_BROADCASTS →
      broadcastFireEffects cfg clocks
        (dw1000_tag_start_ranging_event cfg s).1 k =
      (if k = cfg.NUM_RANGING_BROADCASTS - 1 then [Effect.timer_stop]
       else []) ++
      [Effect.set_ranging_broadcast_subsequence_settings k,
       Effect.dwt_forcetrxoff,
       Effect.dwt_writetxfctrl cfg.PP_TAG_POLL_LEN,
       Effect.dwt_setdelayedtrxtime (delayVal cfg (clocks k)),
       Effect.dwt_writetxdata
         (((broadcastState cfg clocks
             (dw1000_tag_start_ranging_event cfg s).1 k).seqNum + 1) % 256) k] ++
      (if k = cfg.NUM_RANGING_BROADCASTS - 1 then
         [Effect.dwt_setrxaftertxdelay 1, Effect.dwt_starttx true]
       else [Effect.dwt_starttx false]) ++
      [Effect.dwt_settxantennadelay]) := by
  have hinv := broadcast_phase_inv cfg clocks
    (dw1000_tag_start_ranging_event cfg s).1 rfl (fun _ => rfl) hN256
  refine ⟨fun k hk => (hinv k hk).2, ?_, ?_, ?_⟩
  · intro i hi
    obtain ⟨h1, h2, h3⟩ := hck i hi
    rw [sendTimeVal, Nat.shiftLeft_eq, delayVal_eq, Nat.mod_eq_of_lt h1,
      Nat.mod_eq_of_lt h3]
    omega
  · intro i j hij hj
    obtain ⟨hi1, hi2, hi3⟩ := hck i (lt_trans hij hj)
    obtain ⟨hj1, hj2, hj3⟩ := hck j hj
    have hsep := hmono j hj i hij
    rw [sendTimeVal, sendTimeVal, Nat.shiftLeft_eq, Nat.shiftLeft_eq,
      delayVal_eq, delayVal_eq, Nat.mod_eq_of_lt hi1, Nat.mod_eq_of_lt hj1,
      Nat.mod_eq_of_lt hi3, Nat.mod_eq_of_lt hj3]
    omega
  · intro k hk
    obtain ⟨hss, _⟩ := hinv k (le_of_lt hk)
    have hkk : k % 256 = k := Nat.mod_eq_of_lt (by omega)
    rw [hkk] at hss
    simp only [broadcastFireEffects, ranging_broadcast_subsequence_task,
      send_poll, apply_ite, ite_self, hss]
    split_ifs <;> simp

/-- C5 witness: with 3 broadcasts and clock readings 100, 110, 120, the
final array is strictly increasing on the written slots and slot 3 is never
written. -/
theorem c5_witness :
    (broadcastState cfgW (fun k => 100 + 10 * k)
      (dw1000_tag_start_ranging_event cfgW sIdle).1 3).ranging_broadcast_ss_send_times 0 <
    (broadcastState cfgW (fun k => 100 + 10 * k)
      (dw1000_tag_start_ranging_event cfgW sIdle).1 3).ranging_broadcast_ss_send_times 1 ∧
    (broadcastState cfgW (fun k => 100 + 10 * k)
      (dw1000_tag_start_ranging_event cfgW sIdle).1 3).ranging_broadcast_ss_send_times 3
      = 0 := by
  obtain ⟨hchar, hnz, hmono, heff⟩ :=
    c5_broadcast_send_times cfgW sIdle (fun k => 100 + 10 * k) (by decide)
      (by decide) (by decide) (by decide)
  have h0 := hchar 3 (by decide) 0
  have h1 := hchar 3 (by decide) 1
  have h3 := hchar 3 (by decide) 3
  rw [if_pos (by decide)] at h0 h1
  rw [if_neg (by decide)] at h3
  refine ⟨?_, h3⟩
  rw [h0, h1]
  exact hmono 0 1 (by decide) (by decide)

/-! ## C1: the state trace of one full ranging event

With `NUM_RANGING_BROADCASTS = 3` and `NUM_RANGING_LISTENING_WINDOWS = 2`,
the stimulus list of one full event is: start, then for each broadcast a
timer fire followed by its transmit-complete callback, then the two anchor
responses, then the listening-window timer fires. -/

/-- C1 counterexample: after the configured number (2) of window-timer
fires the machine has NOT entered ComputingRanges — it is still Listening
and the Range Calculator has not been invoked.  (The first fire opens
window 0, the second opens window 1; only a further fire detects
completion.)  This refutes the claim that the machine enters
ComputingRanges after `NUM_RANGING_LISTENING_WINDOWS` window-timer
fires. -/
theorem c1_counterexample :
    (run_full cfgW sIdle
      [TagInput.start, TagInput.timer_fire 100,
       TagInput.tx dwt_event.DWT_SIG_TX_DONE, TagInput.timer_fire 200,
       TagInput.tx dwt_event.DWT_SIG_TX_DONE, TagInput.timer_fire 300,
       TagInput.tx dwt_event.DWT_SIG_TX_DONE,
       TagInput.rx rxAncFinal, TagInput.rx rxAncFinal,
       TagInput.timer_fire 400, TagInput.timer_fire 500]).1.tag_state =
      tag_state_e.TSTATE_LISTENING ∧
    countCalcRanges (run_full cfgW sIdle
      [TagInput.start, TagInput.timer_fire 100,
       TagInput.tx dwt_event.DWT_SIG_TX_DONE, TagInput.timer_fire 200,
       TagInput.tx dwt_event.DWT_SIG_TX_DONE, TagInput.timer_fire 300,
       TagInput.tx dwt_event.DWT_SIG_TX_DONE,
       TagInput.rx rxAncFinal, TagInput.rx rxAncFinal,
       TagInput.timer_fire 400, TagInput.timer_fire 500]).2 = 0 :=
  ⟨rfl, rfl⟩

/-- C1 amended: for one full ranging event with `NUM_RANGING_BROADCASTS = 3`
and `NUM_RANGING_LISTENING_WINDOWS = 2`, the state trace is:
start-ranging-event moves Idle to Broadcasting; after the third broadcast
fire the machine awaits the last transmit-complete confirmation
(AwaitingTransition), and that last transmit-complete callback moves it to
Listening, resetting the listening-window index and the anchor-response
count to 0 and arming the window timer; two ANC_FINAL receptions bring the
response count to 2; after `NUM_RANGING_LISTENING_WINDOWS` window-timer
fires the machine is still Listening, and on the next
(`NUM_RANGING_LISTENING_WINDOWS + 1`-th) fire — one fire per window plus a
final fire that detects completion — it enters ComputingRanges, with
response count 2, and invokes the Range Calculator exactly once in the
whole trace. -/
theorem c1_amended_full_event_trace (cfg : Config) (s : TagState)
    (c0 c1 c2 : Nat) (r1 r2 : RxInput)
    (hN : cfg.NUM_RANGING_BROADCASTS = 3)
    (hW : cfg.NUM_RANGING_LISTENING_WINDOWS = 2)
    (hM : 2 ≤ cfg.MAX_NUM_ANCHOR_RESPONSES)
    (hs : s.tag_state = tag_state_e.TSTATE_IDLE)
    (hr1 : r1.event = dwt_event.DWT_SIG_RX_OKAY)
    (hm1 : r1.message_type = MSG_TYPE_PP_NOSLOTS_ANC_FINAL)
    (hr2 : r2.event = dwt_event.DWT_SIG_RX_OKAY)
    (hm2 : r2.message_type = MSG_TYPE_PP_NOSLOTS_ANC_FINAL) :
    (run_full cfg s [TagInput.start]).1.tag_state =
      tag_state_e.TSTATE_BROADCASTS ∧
    (run_full cfg s [TagInput.start, TagInput.timer_fire c0,
       TagInput.tx dwt_event.DWT_SIG_TX_DONE, TagInput.timer_fire c1,
       TagInput.tx dwt_event.DWT_SIG_TX_DONE,
       TagInput.timer_fire c2]).1.tag_state =
      tag_state_e.TSTATE_TRANSITION_TO_ANC_FINAL ∧
    (run_full cfg s [TagInput.start, TagInput.timer_fire c0,
       TagInput.tx dwt_event.DWT_SIG_TX_DONE, TagInput.timer_fire c1,
       TagInput.tx dwt_event.DWT_SIG_TX_DONE, TagInput.timer_fire c2,
       TagInput.tx dwt_event.DWT_SIG_TX_DONE]).1.tag_state =
      tag_state_e.TSTATE_LISTENING ∧
    (run_full cfg s [TagInput.start, TagInput.timer_fire c0,
       TagInput.tx dwt_event.DWT_SIG_TX_DONE, TagInput.timer_fire c1,
       TagInput.tx dwt_event.DWT_SIG_TX_DONE, TagInput.timer_fire c2,
       TagInput.tx dwt_event.DWT_SIG_TX_DONE]).1.ranging_listening_window_num
      = 0 ∧
    (run_full cfg s [TagInput.start, TagInput.timer_fire c0,
       TagInput.tx dwt_event.DWT_SIG_TX_DONE, TagInput.timer_fire c1,
       TagInput.tx dwt_event.DWT_SIG_TX_DONE, TagInput.timer_fire c2,
       TagInput.tx dwt_event.DWT_SIG_TX_DONE]).1.anchor_response_count = 0 ∧
    (run_full cfg s [TagInput.start, TagInput.timer_fire c0,
       TagInput.tx dwt_event.DWT_SIG_TX_DONE, TagInput.timer_fire c1,
       TagInput.tx dwt_event.DWT_SIG_TX_DONE, TagInput.timer_fire c2,
       TagInput.tx dwt_event.DWT_SIG_TX_DONE]).1.timer =
      some timer_task.listening_window ∧
    (run_full cfg s [TagInput.start, TagInput.timer_fire c0,
       TagInput.tx dwt_event.DWT_SIG_TX_DONE, TagInput.timer_fire c1,
       TagInput.tx dwt_event.DWT_SIG_TX_DONE, TagInput.timer_fire c2,
       TagInput.tx dwt_event.DWT_SIG_TX_DONE, TagInput.rx r1,
       TagInput.rx r2]).1.anchor_response_count = 2 ∧
    (run_full cfg s [TagInput.start, TagInput.timer_fire c0,
       TagInput.tx dwt_event.DWT_SIG_TX_DONE, TagInput.timer_fire c1,
       TagInput.tx dwt_event.DWT_SIG_TX_DONE, TagInput.timer_fire c2,
       TagInput.tx dwt_event.DWT_SIG_TX_DONE, TagInput.rx r1,
       TagInput.rx r2, TagInput.timer_fire 0,
       TagInput.timer_fire 0]).1.tag_state = tag_state_e.TSTATE_LISTENING ∧
    (run_full cfg s [TagInput.start, TagInput.timer_fire c0,
       TagInput.tx dwt_event.DWT_SIG_TX_DONE, TagInput.timer_fire c1,
       TagInput.tx dwt_event.DWT_SIG_TX_DONE, TagInput.timer_fire c2,
       TagInput.tx dwt_event.DWT_SIG_TX_DONE, TagInput.rx r1,
       TagInput.rx r2, TagInput.timer_fire 0, TagInput.timer_fire 0,
       TagInput.timer_fire 0]).1.tag_state =
      tag_state_e.TSTATE_CALCULATE_RANGE ∧
    (run_full cfg s [TagInput.start, TagInput.timer_fire c0,
       TagInput.tx dwt_event.DWT_SIG_TX_DONE, TagInput.timer_fire c1,
       TagInput.tx dwt_event.DWT_SIG_TX_DONE, TagInput.timer_fire c2,
       TagInput.tx dwt_event.DWT_SIG_TX_DONE, TagInput.rx r1,
       TagInput.rx r2, TagInput.timer_fire 0, TagInput.timer_fire 0,
       TagInput.timer_fire 0]).1.anchor_response_count = 2 ∧
    countCalcRanges (run_full cfg s [TagInput.start, TagInput.timer_fire c0,
       TagInput.tx dwt_event.DWT_SIG_TX_DONE, TagInput.timer_fire c1,
       TagInput.tx dwt_event.DWT_SIG_TX_DONE, TagInput.timer_fire c2,
       TagInput.tx dwt_event.DWT_SIG_TX_DONE, TagInput.rx r1,
       TagInput.rx r2, TagInput.timer_fire 0, TagInput.timer_fire 0,
       TagInput.timer_fire 0]).2 = 1 := by
  have hM0 : ¬ (0 ≥ cfg.MAX_NUM_ANCHOR_RESPONSES) := by omega
  have hM1 : ¬ (1 ≥ cfg.MAX_NUM_ANCHOR_RESPONSES) := by omega
  refine ⟨?_, ?_, ?_, ?_, ?_, ?_, ?_, ?_, ?_, ?_, ?_⟩ <;>
    simp [run_full, tag_step, dw1000_tag_start_ranging_event,
      ranging_broadcast_subsequence_task_full,
      ranging_broadcast_subsequence_task, send_poll,
      ranging_listening_window_task, dw1000_tag_txcallback,
      dw1000_tag_rxcallback, countCalcRanges, writeIdx,
      hN, hW, hr1, hm1, hr2, hm2, hM0, hM1]

/-- C1 witness: the amended trace theorem applied to the concrete
configuration `cfgW`, the boot state, concrete clock readings and two
concrete ANC_FINAL receptions. -/
theorem c1_witness :
    (run_full cfgW sIdle [TagInput.start, TagInput.timer_fire 100,
       TagInput.tx dwt_event.DWT_SIG_TX_DONE, TagInput.timer_fire 200,
       TagInput.tx dwt_event.DWT_SIG_TX_DONE, TagInput.timer_fire 300,
       TagInput.tx dwt_event.DWT_SIG_TX_DONE, TagInput.rx rxAncFinal,
       TagInput.rx rxAncFinal, TagInput.timer_fire 0, TagInput.timer_fire 0,
       TagInput.timer_fire 0]).1.tag_state =
      tag_state_e.TSTATE_CALCULATE_RANGE :=
  (c1_amended_full_event_trace cfgW sIdle 100 200 300 rxAncFinal rxAncFinal
    rfl rfl (by decide) rfl rfl rfl rfl rfl).2.2.2.2.2.2.2.2.1

end Polypoint
